import Mathlib

/-!
Verification of the fincantatem failure-analysis pipeline.

The development shallowly embeds the Python source of the repository:
pure fragments become Lean functions, reflective Python primitives
(`str.strip`, `str.lower`, `str.startswith`, slicing, `len`) are modelled
as explicit operations on the character list of a `String` (Python strings
are sequences of code points, exactly `List Char` here, restricted to
ASCII case mapping for `lower`), fallible code returns `Option`/`Except`,
and `json.loads` is modelled by an executable fuel-based JSON parser
(numbers restricted to integer literals and non-surrogate escapes, which
are the only forms the verified inputs use).
-/

namespace Fincantatem

/-! ## Python string primitives -/

/-- Whitespace characters stripped by Python `str.strip()`. -/
def isPySpace (c : Char) : Bool :=
  c = ' ' ∨ c = '\t' ∨ c = '\n' ∨ c = '\r' ∨ c = '\x0b' ∨ c = '\x0c'

/-- Python `str.strip()`: drop whitespace from both ends. -/
def pyStrip (s : String) : String :=
  String.mk (((s.data.dropWhile isPySpace).reverse.dropWhile isPySpace).reverse)

/-- ASCII case mapping of a single character, as Python `str.lower()` does on
ASCII input (the only inputs compared in the source): shift an upper-case
letter down into lower case, leave everything else alone. -/
def pyLowerChar (c : Char) : Char :=
  if 65 ≤ c.toNat ∧ c.toNat ≤ 90 then Char.ofNat (c.toNat + 32) else c

/-- Python `str.lower()` (ASCII). -/
def pyLower (s : String) : String :=
  String.mk (s.data.map pyLowerChar)

/-- Python `s.startswith(p)`. -/
def pyStartsWith (s p : String) : Bool :=
  p.data.isPrefixOf s.data

/-- Python `s.endswith(p)`. -/
def pyEndsWith (s p : String) : Bool :=
  p.data.isSuffixOf s.data

/-- Occurrence of `sub` as a contiguous run anywhere in `l`. -/
def listContains (sub : List Char) : List Char → Bool
  | [] => sub.isEmpty
  | c :: rest => sub.isPrefixOf (c :: rest) || listContains sub rest

/-- Python `sub in s` membership test on strings. -/
def pyContains (s sub : String) : Bool :=
  listContains sub.data s.data

/-- Python slicing `s[n:]`. -/
def pyDrop (s : String) (n : Nat) : String :=
  String.mk (s.data.drop n)

/-- Python slicing `s[:n]`. -/
def pyTake (s : String) (n : Nat) : String :=
  String.mk (s.data.take n)

/-- Python `len(s)`: the number of code points. -/
def pyLen (s : String) : Nat :=
  s.data.length

/-! ## Chat command parsing (`lib/ports/chat.py`) -/

/-- The `ChatCommand` enum of `lib/ports/chat.py`. -/
inductive ChatCommand where
  | help
  | save
  | quit
  | quitShort
deriving DecidableEq, Repr

/-- The `value` of each `ChatCommand` member. -/
def ChatCommand.value : ChatCommand → String
  | .help => "/help"
  | .save => "/save"
  | .quit => "/quit"
  | .quitShort => "/q"

/-- Iteration order of `for cmd in ChatCommand` (declaration order). -/
def chatCommandList : List ChatCommand :=
  [.help, .save, .quit, .quitShort]

/-- The `_is_command` predicate: `text.strip().startswith("/")`. -/
def is_command (text : String) : Bool :=
  pyStartsWith (pyStrip text) "/"

/-- The `_parse_command` function: strip and lowercase the input, then return
the first enum member whose value equals it, else `none`. -/
def parse_command (text : String) : Option ChatCommand :=
  let t := pyLower (pyStrip text)
  chatCommandList.find? (fun cmd => t == cmd.value)

/-- A chat `Message`: role plus text content (`domain/aggs.py`; the content
types `Prompt`/`Response` are strings). -/
structure Message where
  role : String
  content : String
deriving DecidableEq, Repr

/-- The `Chat.ask_user` loop of `lib/ports/chat.py`, run against a queue of
pending user inputs (successive results of `interface.prompt`; exhaustion of
the queue models `prompt` returning `None`, i.e. end of input). Returns the
produced user prompt (or `none` on quit / end of input) and the message
history. The `/help` and `/save` branches display text or write an export
file without touching the history and then re-prompt, which is exactly the
recursive call on the remaining inputs. -/
def ask_user (messages : List Message) : List String → Option String × List Message
  | [] => (none, messages)
  | p :: rest =>
    if is_command p then
      match parse_command p with
      | some .quit => (none, messages)
      | some .quitShort => (none, messages)
      | some .help => ask_user messages rest
      | some .save => ask_user messages rest
      | none => ask_user messages rest
    else
      (some p, messages ++ [Message.mk "user" p])

/-- The `Chat.add_response` method: append an assistant message. -/
def add_response (messages : List Message) (response : String) : List Message :=
  messages ++ [Message.mk "assistant" response]

/-! ## JSON values and `json.loads` (used by `lib/ports/inference.py` and
`lib/ports/chat.py`) -/

/-- JSON documents. Numbers are restricted to integers: no payload handled by
the verified code paths carries a fractional number, and the embedded parser
rejects fractional literals (a strict subset of what Python accepts, noted in
the file header). -/
inductive Json where
  | null
  | bool (b : Bool)
  | num (n : Int)
  | str (s : String)
  | arr (xs : List Json)
  | obj (kvs : List (String × Json))

/-- Lookup of a key in a JSON object member list, first occurrence wins, as
Python dict construction keeps the last duplicate; the parser below therefore
keeps only the last occurrence of a duplicated key when building `obj`. -/
def jlookup (k : String) : List (String × Json) → Option Json
  | [] => none
  | (k2, v) :: rest => if k2 = k then some v else jlookup k rest

/-- Python truthiness (`if x:`) of a decoded JSON value. -/
def pyTruthy : Json → Bool
  | .null => false
  | .bool b => b
  | .num n => n != 0
  | .str s => s ≠ ""
  | .arr xs => ¬ xs.isEmpty
  | .obj kvs => ¬ kvs.isEmpty

/-- JSON whitespace. -/
def isJsonWs (c : Char) : Bool :=
  c = ' ' ∨ c = '\t' ∨ c = '\n' ∨ c = '\r'

/-- Skip JSON whitespace. -/
def skipJsonWs (cs : List Char) : List Char :=
  cs.dropWhile isJsonWs

/-- Decimal digit test. -/
def isJsonDigit (c : Char) : Bool :=
  '0' ≤ c ∧ c ≤ '9'

/-- Value of one hexadecimal digit. -/
def hexDigitVal (c : Char) : Option Nat :=
  if '0' ≤ c ∧ c ≤ '9' then some (c.toNat - '0'.toNat)
  else if 'a' ≤ c ∧ c ≤ 'f' then some (c.toNat - 'a'.toNat + 10)
  else if 'A' ≤ c ∧ c ≤ 'F' then some (c.toNat - 'A'.toNat + 10)
  else none

/-- Body of a JSON string literal, after the opening quote: collect characters
until the closing quote, decoding the standard escapes. Surrogate `\u` escapes
are rejected (Lean characters are scalar values). -/
def parseStringBody : Nat → List Char → List Char → Option (String × List Char)
  | 0, _, _ => none
  | _ + 1, _, [] => none
  | fuel + 1, acc, c :: rest =>
    if c = '"' then some (String.mk acc.reverse, rest)
    else if c = '\\' then
      match rest with
      | [] => none
      | e :: rest2 =>
        if e = '"' then parseStringBody fuel ('"' :: acc) rest2
        else if e = '\\' then parseStringBody fuel ('\\' :: acc) rest2
        else if e = '/' then parseStringBody fuel ('/' :: acc) rest2
        else if e = 'b' then parseStringBody fuel ('\x08' :: acc) rest2
        else if e = 'f' then parseStringBody fuel ('\x0c' :: acc) rest2
        else if e = 'n' then parseStringBody fuel ('\n' :: acc) rest2
        else if e = 'r' then parseStringBody fuel ('\r' :: acc) rest2
        else if e = 't' then parseStringBody fuel ('\t' :: acc) rest2
        else if e = 'u' then
          match rest2 with
          | h1 :: h2 :: h3 :: h4 :: rest3 =>
            match hexDigitVal h1, hexDigitVal h2, hexDigitVal h3, hexDigitVal h4 with
            | some v1, some v2, some v3, some v4 =>
              let code := ((v1 * 16 + v2) * 16 + v3) * 16 + v4
              if 0xd800 ≤ code ∧ code ≤ 0xdfff then none
              else parseStringBody fuel (Char.ofNat code :: acc) rest3
            | _, _, _, _ => none
          | _ => none
        else none
    else if c.toNat < 0x20 then none
    else parseStringBody fuel (c :: acc) rest

/-- Leading run of decimal digits. -/
def parseDigits (cs : List Char) : List Char × List Char :=
  (cs.takeWhile isJsonDigit, cs.dropWhile isJsonDigit)

/-- Natural number denoted by a digit run. -/
def digitsToNat (ds : List Char) : Nat :=
  ds.foldl (fun acc c => acc * 10 + (c.toNat - '0'.toNat)) 0

/-- Integer JSON number literal (optional minus sign and digits; a following
fractional or exponent part makes the parse fail, see `Json`). -/
def parseJsonNumber (cs : List Char) : Option (Json × List Char) :=
  let (neg, cs1) :=
    match cs with
    | '-' :: rest => (true, rest)
    | _ => (false, cs)
  match parseDigits cs1 with
  | ([], _) => none
  | (ds, rest) =>
    match rest with
    | '.' :: _ => none
    | 'e' :: _ => none
    | 'E' :: _ => none
    | _ =>
      let n : Int := Int.ofNat (digitsToNat ds)
      some (.num (if neg then -n else n), rest)

mutual

/-- One JSON value, leading whitespace allowed. -/
def parseJsonValue : Nat → List Char → Option (Json × List Char)
  | 0, _ => none
  | fuel + 1, cs =>
    match skipJsonWs cs with
    | [] => none
    | c :: rest =>
      if c = '"' then
        match parseStringBody (fuel + 1) [] rest with
        | some (s, rest2) => some (.str s, rest2)
        | none => none
      else if c = '[' then
        match skipJsonWs rest with
        | ']' :: rest2 => some (.arr [], rest2)
        | _ =>
          match parseJsonArrayItems fuel (skipJsonWs rest) with
          | some (xs, rest2) => some (.arr xs, rest2)
          | none => none
      else if c = '{' then
        match skipJsonWs rest with
        | '}' :: rest2 => some (.obj [], rest2)
        | _ =>
          match parseJsonObjectItems fuel (skipJsonWs rest) with
          | some (kvs, rest2) => some (.obj kvs, rest2)
          | none => none
      else if c = 't' then
        match rest with
        | 'r' :: 'u' :: 'e' :: rest2 => some (.bool true, rest2)
        | _ => none
      else if c = 'f' then
        match rest with
        | 'a' :: 'l' :: 's' :: 'e' :: rest2 => some (.bool false, rest2)
        | _ => none
      else if c = 'n' then
        match rest with
        | 'u' :: 'l' :: 'l' :: rest2 => some (.null, rest2)
        | _ => none
      else
        parseJsonNumber (c :: rest)

/-- Comma-separated array items, positioned at the first item. -/
def parseJsonArrayItems : Nat → List Char → Option (List Json × List Char)
  | 0, _ => none
  | fuel + 1, cs =>
    match parseJsonValue fuel cs with
    | none => none
    | some (x, rest) =>
      match skipJsonWs rest with
      | ',' :: rest2 =>
        match parseJsonArrayItems fuel rest2 with
        | some (xs, rest3) => some (x :: xs, rest3)
        | none => none
      | ']' :: rest2 => some ([x], rest2)
      | _ => none

/-- Comma-separated object members, positioned at the first key. -/
def parseJsonObjectItems : Nat → List Char → Option (List (String × Json) × List Char)
  | 0, _ => none
  | fuel + 1, cs =>
    match skipJsonWs cs with
    | '"' :: rest =>
      match parseStringBody (fuel + 1) [] rest with
      | none => none
      | some (k, rest2) =>
        match skipJsonWs rest2 with
        | ':' :: rest3 =>
          match parseJsonValue fuel rest3 with
          | none => none
          | some (v, rest4) =>
            match skipJsonWs rest4 with
            | ',' :: rest5 =>
              match parseJsonObjectItems fuel rest5 with
              | some (kvs, rest6) =>
                match jlookup k kvs with
                | some v2 => some ((k, v2) :: kvs.filter (fun kv => kv.1 ≠ k), rest6)
                | none => some ((k, v) :: kvs, rest6)
              | none => none
            | '}' :: rest5 => some ([(k, v)], rest5)
            | _ => none
        | _ => none
    | _ => none

end

/-- The `json.loads` primitive: parse a complete JSON document, rejecting
trailing garbage, `none` on any decode failure (Python raises
`json.JSONDecodeError`). -/
def json_loads (s : String) : Option Json :=
  match parseJsonValue (4 * s.data.length + 8) s.data with
  | some (j, rest) => if skipJsonWs rest = [] then some j else none
  | none => none

/-! ## Streaming inference client (`lib/ports/inference.py`, `call_stream`) -/

/-- Python `d.get(k, default)`: requires a dict (anything else raises
`AttributeError`, modelled as `Except.error`), returns the member or the
default. -/
def pyDictGetD (j : Json) (k : String) (dflt : Json) : Except Unit Json :=
  match j with
  | .obj kvs => .ok ((jlookup k kvs).getD dflt)
  | _ => .error ()

/-- Python `d.get(k)`: requires a dict, returns the member or `None`. -/
def pyDictGet (j : Json) (k : String) : Except Unit Json :=
  pyDictGetD j k .null

/-- Python subscript `x[0]` on a decoded JSON value, followed in the source by
a `.get` call: it succeeds usefully only on a non-empty JSON array (an empty
array raises `IndexError`; a number, object or null raises; a string yields a
one-character string whose subsequent `.get` raises `AttributeError`, so it is
collapsed into the error case it inevitably produces). -/
def pySubscript0 (j : Json) : Except Unit Json :=
  match j with
  | .arr (x :: _) => .ok x
  | _ => .error ()

/-- The delta extraction `data.get("choices", [\x7b\x7d])[0].get("delta", \x7b\x7d)`
from `call_stream`. -/
def getChoices0Delta (data : Json) : Except Unit Json := do
  let choices ← pyDictGetD data "choices" (.arr [.obj []])
  let first ← pySubscript0 choices
  pyDictGetD first "delta" (.obj [])

/-- Outcome of processing one decoded transport line in `call_stream`:
ignore it, end the stream (the `[DONE]` sentinel), yield a fragment, or raise
an uncaught exception (only `json.JSONDecodeError` is caught by the loop). -/
inductive LineResult where
  | skip
  | done
  | frag (content : Json)
  | err

/-- The body of the `for line_bytes in resp` loop of `call_stream` for one
line: strip it, ignore it unless it carries the `data: ` prefix, stop at the
`[DONE]` sentinel, skip undecodable payloads, navigate to
`choices[0].delta.content` and yield the content when it is truthy. -/
def process_stream_line (line0 : String) : LineResult :=
  let line := pyStrip line0
  if line = "" ∨ ¬ pyStartsWith line "data: " then .skip
  else
    let dataStr := pyDrop line 6
    if dataStr = "[DONE]" then .done
    else
      match json_loads dataStr with
      | none => .skip
      | some data =>
        match getChoices0Delta data with
        | .error _ => .err
        | .ok delta =>
          match pyDictGet delta "content" with
          | .error _ => .err
          | .ok content => if pyTruthy content then .frag content else .skip

/-- One event observed while iterating the open response: a decoded line, or
a transport fault (a read or UTF-8 decode error raised by the iteration
itself, which propagates out of the generator). -/
inductive TransportEvent where
  | line (s : String)
  | fault
deriving Repr

/-- Fragments produced (in order) and whether consumption ended in a raised
error, for the loop body of `call_stream` run over the transport events. A
generator yields each fragment before the next read, so fragments preceding
a later fault are still produced. -/
def consume_stream : List TransportEvent → List Json × Bool
  | [] => ([], false)
  | .fault :: _ => ([], true)
  | .line s :: rest =>
    match process_stream_line s with
    | .skip => consume_stream rest
    | .done => ([], false)
    | .err => ([], true)
    | .frag c =>
      let (fs, e) := consume_stream rest
      (c :: fs, e)

/-- A complete run of the `call_stream` generator after a successful
handshake. The `try`/`finally` around the consumption loop closes the
response on every exit path — normal exhaustion, the `[DONE]` break, and any
error raised while consuming — which the model records in `released`. -/
structure StreamRun where
  fragments : List Json
  errored : Bool
  released : Bool

/-- The `call_stream` generator of `InferenceApi` over a list of transport
events: the loop of `consume_stream` wrapped in the `finally: resp.close()`. -/
def call_stream (events : List TransportEvent) : StreamRun :=
  let (fs, e) := consume_stream events
  ⟨fs, e, true⟩

/-! ## Captured Python values and stack frames -/

/-- A captured local-variable value, as the JAX plugin observes it: either an
array-like object exposing `shape` and `dtype` attributes (with the module of
its runtime type, tracer information and a device descriptor, the latter
collapsing the `device()`/`devices()` probing of `helpers.py` into the string
it produces), a tuple, a list, or any other object (carrying only the module
of its runtime type). Only array-likes answer `hasattr(v, "shape")` and
`hasattr(v, "dtype")`. -/
inductive PyValue where
  | nd (shape : List Nat) (dtype : String) (typeModule : String)
       (isTracer : Bool) (tracerLevel : Option Nat) (device : String)
  | tup (xs : List PyValue)
  | lst (xs : List PyValue)
  | other (typeModule : String)

/-- The `SourceCodeBundle` aggregate of `domain/aggs.py`. `local_vars` is the
optional ordered name-to-value mapping captured from the frame. -/
structure SourceCodeBundle where
  path : String
  code : String
  snippet : String
  line_number_offset : Nat
  code_start_line_number_offset : Nat
  function_name : String
  local_vars : Option (List (String × PyValue))

/-- One traceback entry as `fetch_source_code_bundle` reads it: the frame's
function name, file name, failing line number and captured locals. -/
structure Frame where
  function_name : String
  filename : String
  lineno : Nat
  local_vars : Option (List (String × PyValue))

/-- The file-access collaborator of the builder (`domain/ports.py` is not in
the tree; the interface is exactly what `fetch_source_code_bundle` calls).
`fromPath` covers the path-based pair of fetches (full source and snippet,
`none` when either raises); `fromFrame` covers the frame-based fallback pair
(full source, its start line, and snippet, `none` when either raises). -/
structure FileSystem where
  fromPath : String → Nat → Option (String × String)
  fromFrame : Frame → Option (String × Nat × String)

/-- Frames of the tool's own wrapping layer:
`function_name == "wrapper" and filename.endswith("__init__.py")`. -/
def is_wrapper_frame (f : Frame) : Bool :=
  f.function_name = "wrapper" ∧ pyEndsWith f.filename "__init__.py"

/-- Frames of an embedding IPython shell:
`"/IPython/core/interactiveshell.py" in filename`. -/
def is_ipython_frame (f : Frame) : Bool :=
  pyContains f.filename "/IPython/core/interactiveshell.py"

/-- Errors escaping `build_exception_context`. `fileSystemAccessError` is the
`FileSystemAccessError` raised when both source fetches fail for a frame;
`indexError` is the `IndexError` of an out-of-range list subscript.
`emptyFrameChain` — modelled from the spec: the dedicated `EmptyFrameChain`
error the spec prescribes for a frame walk that yields nothing; no code under
`src/` ever raises it, and it is included only so that statements can
distinguish it from the errors the code does raise. -/
inductive BuildError where
  | fileSystemAccessError
  | indexError
  | emptyFrameChain
deriving DecidableEq, Repr

/-- The frame walk `fetch_source_code_bundle` of `domain/workflows.py`:
follow the traceback chain, skip wrapper and IPython frames, and for each
remaining frame fetch source text path-first with the frame-based fallback
(`code_start` is `1` on the path branch), failing with
`FileSystemAccessError` when both fetches fail. -/
def fetch_source_code_bundle (fs : FileSystem) :
    List Frame → Except BuildError (List SourceCodeBundle)
  | [] => .ok []
  | f :: tbNext =>
    if is_wrapper_frame f ∨ is_ipython_frame f then
      fetch_source_code_bundle fs tbNext
    else
      match fs.fromPath f.filename f.lineno with
      | some (source_code, snippet) => do
        let rest ← fetch_source_code_bundle fs tbNext
        .ok (⟨f.filename, source_code, snippet, f.lineno, 1,
              f.function_name, f.local_vars⟩ :: rest)
      | none =>
        match fs.fromFrame f with
        | some (source_code, code_start, snippet) => do
          let rest ← fetch_source_code_bundle fs tbNext
          .ok (⟨f.filename, source_code, snippet, f.lineno, code_start,
                f.function_name, f.local_vars⟩ :: rest)
        | none => .error .fileSystemAccessError

/-- The reflective metadata of the raised exception that
`build_exception_context` reads before the frame walk: type name, message,
`repr` of the chained exceptions when present, the `__dict__` snapshot when
the attribute exists, else the `__slots__` snapshot when that exists, and the
formatted traceback text. Attribute values are kept as their captured
representations. -/
structure ExceptionInfo where
  type_name : String
  message : String
  cause : Option String
  context : Option String
  dict_attrs : Option (List (String × String))
  slots_attrs : Option (List (String × String))
  traceback_text : String
  frames : List Frame

/-- The `ExceptionContext` aggregate of `domain/aggs.py`, polymorphic in the
per-framework context type (`StringableContext` is structural in the source;
consumers pass the rendering capability separately). -/
structure ExceptionContext (α : Type) where
  python_version : String
  exception_type_name : String
  exception_message : String
  exception_attributes : Option (List (String × String))
  traceback : String
  cause : Option String
  context : Option String
  immediate_source_code_bundle : SourceCodeBundle
  source_code_bundles : List SourceCodeBundle
  framework_context : List α

/-- The attribute normalization in `build_exception_context`: `__dict__` if
present, else the `__slots__` snapshot, with an empty mapping normalized to
`None`. -/
def exception_attributes_of (e : ExceptionInfo) : Option (List (String × String)) :=
  let attrs :=
    match e.dict_attrs with
    | some d => some d
    | none => e.slots_attrs
  match attrs with
  | some [] => none
  | a => a

/-- The `build_exception_context` workflow of `domain/workflows.py`: compute
the exception metadata, run the frame walk, and assemble the aggregate with
`source_code_bundles[-1]` as the immediate bundle (an `IndexError` when the
walk produced nothing), `source_code_bundles[:-1]` as the outer sequence, and
the non-`None` results of each framework's `extract_context` on the full
bundle list, in registration order. -/
def build_exception_context {α : Type} (python_version : String)
    (exception : ExceptionInfo) (file_system : FileSystem)
    (frameworks : List (List SourceCodeBundle → Option α)) :
    Except BuildError (ExceptionContext α) := do
  let source_code_bundles ← fetch_source_code_bundle file_system exception.frames
  match source_code_bundles.getLast? with
  | none => .error .indexError
  | some immediate =>
    .ok ⟨python_version, exception.type_name, exception.message,
         exception_attributes_of exception, exception.traceback_text,
         exception.cause, exception.context, immediate,
         source_code_bundles.dropLast,
         frameworks.filterMap (fun fw => fw source_code_bundles)⟩

/-! ## The JAX framework plugin (`lib/framework/jax/`) -/

/-- The `JaxArrayMetadata` record of `lib/framework/jax/types.py`. -/
structure JaxArrayMetadata where
  name : String
  shape : List Nat
  dtype : String
  device : String
  is_tracer : Bool
  tracer_level : Option Nat
deriving DecidableEq, Repr

/-- The `PRNGKeyMetadata` record of `lib/framework/jax/types.py`. -/
structure PRNGKeyMetadata where
  name : String
  key_type : String
  was_split : Bool
deriving DecidableEq, Repr

/-- The `JaxFrameContext` record of `lib/framework/jax/types.py`. -/
structure JaxFrameContext where
  arrays : List JaxArrayMetadata
  prng_keys : List PRNGKeyMetadata
  transformation_context : Option String
  is_tracing : Bool
deriving DecidableEq, Repr

/-- The `JaxContext` record of `lib/framework/jax/types.py` (the
`relevant_documentation` list is always empty in the source and omitted). -/
structure JaxContext where
  name : String
  version : String
  frame_contexts : List JaxFrameContext
  device_count : Nat
  default_backend : String
deriving DecidableEq, Repr

/-- Ambient JAX state read by the plugin: `jax.__version__`,
`len(jax.devices())`, `jax.default_backend()` and the tracing probe
`is_tracing()` of `helpers.py`. -/
structure JaxEnv where
  version : String
  device_count : Nat
  default_backend : String
  tracing : Bool

/-- Which captured values are `jax.core.Tracer` instances: exactly the
array-likes flagged as tracers. -/
def pyIsTracer : PyValue → Bool
  | .nd _ _ _ isTracer _ _ => isTracer
  | _ => false

/-- The `extract_array_metadata` helper of `lib/framework/jax/helpers.py`:
require `shape` and `dtype` attributes, require the runtime type's module to
start with `"jax"`, record tracer status and level (`level` only for
tracers), and the device descriptor. -/
def extract_array_metadata (name : String) (value : PyValue) :
    Option JaxArrayMetadata :=
  match value with
  | .nd shape dtype typeModule isTracer tracerLevel device =>
    if pyStartsWith typeModule "jax" then
      some ⟨name, shape, dtype, device, isTracer,
            if isTracer then tracerLevel else none⟩
    else none
  | _ => none

/-- The `extract_prng_metadata` helper of `lib/framework/jax/helpers.py`:
require `shape` and `dtype` attributes, classify as key-like by the dtype-name
heuristic or the legacy/batched `uint32` shape signatures, then derive
key-vs-subkey and split-ness from the variable name and rank. -/
def extract_prng_metadata (name : String) (value : PyValue) :
    Option PRNGKeyMetadata :=
  match value with
  | .nd shape dtype _ _ _ _ =>
    let dtype_str := dtype
    let is_prng_key :=
      if pyContains (pyLower dtype_str) "key" then true
      else if dtype_str = "uint32" ∧ shape = [2] then true
      else if dtype_str = "uint32" ∧ shape.length = 2 ∧ shape.getLast? = some 2 then
        true
      else false
    if is_prng_key then
      let name_lower := pyLower name
      let key_type := if pyContains name_lower "sub" then "subkey" else "key"
      let was_split := shape.length > 1 ∨ pyContains name_lower "split"
      some ⟨name, key_type, was_split⟩
    else none
  | _ => none

/-- The `detect_transformation` helper of `lib/framework/jax/helpers.py`:
first matching function-name substring decides the transformation tag. -/
def detect_transformation (function_name : String) : Option String :=
  let fn_lower := pyLower function_name
  if pyContains fn_lower "vmap" ∨ pyContains fn_lower "batched" then
    some "vectorize"
  else if pyContains fn_lower "pmap" ∨ pyContains fn_lower "parallel" then
    some "parallelize"
  else if pyContains fn_lower "jit" ∨ pyContains fn_lower "compiled" ∨
      pyContains fn_lower "xla" then
    some "compile"
  else if pyContains fn_lower "grad" ∨ pyContains fn_lower "vjp" ∨
      pyContains fn_lower "jvp" then
    some "differentiate"
  else none

/-- The per-frame local-variable loop of `JaxFramework.extract_context`: skip
dunder names, try the PRNG classification first (`continue` on success), then
the array classification, accumulating both lists in iteration order. -/
def collect_frame_vars : List (String × PyValue) →
    List JaxArrayMetadata × List PRNGKeyMetadata
  | [] => ([], [])
  | (var_name, var_value) :: rest =>
    let (arrays, prng_keys) := collect_frame_vars rest
    if pyStartsWith var_name "__" then (arrays, prng_keys)
    else
      match extract_prng_metadata var_name var_value with
      | some k => (arrays, k :: prng_keys)
      | none =>
        match extract_array_metadata var_name var_value with
        | some a => (a :: arrays, prng_keys)
        | none => (arrays, prng_keys)

/-- One `JaxFrameContext` for one bundle, as built inside
`JaxFramework.extract_context` (the `if bundle.local_vars:` truthiness guard
makes an absent or empty mapping contribute nothing). -/
def jax_frame_context_of (env : JaxEnv) (b : SourceCodeBundle) : JaxFrameContext :=
  let pair := collect_frame_vars (b.local_vars.getD [])
  ⟨pair.1, pair.2, detect_transformation b.function_name, env.tracing⟩

/-- The `JaxFramework.extract_context` method of
`lib/framework/jax/framework.py`: one frame context per bundle, wrapped with
the ambient version, device count and backend. Note the return type: the
method always returns a `JaxContext`, it has no `None` result. -/
def jax_extract_context (env : JaxEnv) (source_code_bundles : List SourceCodeBundle) :
    JaxContext :=
  ⟨"jax", env.version,
   source_code_bundles.map (jax_frame_context_of env),
   env.device_count, env.default_backend⟩

/-- The JAX entry in the builder's framework list: `extract_context` used
where an `Optional` is expected, hence always `some`. -/
def jax_framework_extractor (env : JaxEnv) :
    List SourceCodeBundle → Option JaxContext :=
  fun source_code_bundles => some (jax_extract_context env source_code_bundles)

/-! ## Prompt renderer (`domain/workflows.py`, `build_prompt`) -/

/-- One rendered binding line of `format_locals`:
`"  name = <repr>"`, with representations longer than 200 code points cut to
their first 200 and suffixed with the fixed `"..."` marker. The host `repr`
primitive is a parameter; instantiating it with the identity reads the value
as its already-taken representation. -/
def format_locals_line {α : Type} (reprOf : α → String) (nv : String × α) : String :=
  let value_str0 := reprOf nv.2
  let value_str :=
    if pyLen value_str0 > 200 then pyTake value_str0 200 ++ "..." else value_str0
  "  " ++ nv.1 ++ " = " ++ value_str

/-- The `format_locals` helper of `build_prompt`: the Python
`if not local_vars:` guard sends both an absent and an empty mapping to the
single `"No local variables captured"` line; otherwise one line per binding,
joined with newlines. -/
def format_locals {α : Type} (reprOf : α → String)
    (local_vars : Option (List (String × α))) : String :=
  match local_vars with
  | none => "No local variables captured"
  | some [] => "No local variables captured"
  | some lvs => String.intercalate "\n" (lvs.map (format_locals_line reprOf))

/-- Right-aligned rendering of a line number in a 4-character column, the
`:4d` format of `_render_code_block`. -/
def padLeft4 (n : Nat) : String :=
  let s := toString n
  if pyLen s < 4 then String.mk (List.replicate (4 - pyLen s) ' ') ++ s else s

/-- The `_render_code_block` helper of `build_prompt`: a path/line/function
header, one numbered line per source line with the `>>> ` marker exactly on
the failing line, closed by a fence. -/
def render_code_block (b : SourceCodeBundle) (start_line_number_offset : Nat)
    (code : String) : String :=
  let header :=
    b.path ++ ":" ++ toString b.line_number_offset ++ " (" ++ b.function_name ++
      ")\n```python\n"
  let body := (code.splitOn "\n").enum.foldl
    (fun out iline =>
      let line_no := start_line_number_offset + iline.1
      let marker := if line_no = b.line_number_offset then ">>> " else "    "
      out ++ marker ++ padLeft4 line_no ++ ": " ++ iline.2 ++ "\n")
    header
  body ++ "```\n"

/-- The snippet window policy constant `SNIPPET_BEFORE`. -/
def SNIPPET_BEFORE : Nat := 3

/-- The `_render_snippet` helper: the snippet's own start line when the
bundle records one, else a window starting `SNIPPET_BEFORE` lines above the
failing line, clamped to 1. -/
def render_snippet (b : SourceCodeBundle) : String :=
  let snippet_start :=
    if b.code_start_line_number_offset ≠ 1 then b.code_start_line_number_offset
    else max 1 (b.line_number_offset - SNIPPET_BEFORE)
  render_code_block b snippet_start b.snippet

/-- The `_render_full_source` helper. -/
def render_full_source (b : SourceCodeBundle) : String :=
  render_code_block b b.code_start_line_number_offset b.code

/-- The `get_framework_info_for_frame` helper of `build_prompt`: collect each
framework context's truthy rendering for the frame index and join with
newlines (empty when none contribute). The per-context rendering capability
(`StringableContext.frame_context_string`) is a parameter. -/
def get_framework_info_for_frame {α : Type}
    (frame_context_string : α → Nat → Option String)
    (framework_context : List α) (frame_index : Nat) : String :=
  let framework_info_parts := framework_context.filterMap (fun fw_ctx =>
    match frame_context_string fw_ctx frame_index with
    | some frame_str => if frame_str ≠ "" then some frame_str else none
    | none => none)
  if ¬ framework_info_parts.isEmpty then
    String.intercalate "\n" framework_info_parts
  else ""

/-- The display-to-original index conversion of `render_call_stack_frame`:
`len(context.source_code_bundles) - 1 - display_index`. -/
def original_frame_index (total_outer_frames display_index : Nat) : Nat :=
  total_outer_frames - 1 - display_index

/-- Substitution into `CALL_STACK_CONTEXT_TEMPLATE` of
`domain/constants.py`. -/
def call_stack_template_format (i : Nat)
    (function_name path code local_vars framework_info : String) : String :=
  "\n<frame>\n# Frame " ++ toString i ++ ": " ++ function_name ++ " in " ++
    path ++ "\n\n" ++ code ++ "\n\n<local_variables>\n" ++ local_vars ++
    "\n</local_variables>\n" ++ framework_info ++ "\n</frame>\n"

/-- The `render_call_stack_frame` helper of `build_prompt`: render one outer
frame at its zero-based display index, fetching framework information at the
converted original index. -/
def render_call_stack_frame {α : Type}
    (frame_context_string : α → Nat → Option String)
    (reprOf : PyValue → String) (context : ExceptionContext α)
    (snippets : Bool) (display_index : Nat) (b : SourceCodeBundle) : String :=
  call_stack_template_format display_index b.function_name b.path
    (if snippets then render_snippet b else render_full_source b)
    (format_locals reprOf b.local_vars)
    (get_framework_info_for_frame frame_context_string context.framework_context
      (original_frame_index context.source_code_bundles.length display_index))

/-- The list comprehension of `build_prompt` that renders the call-stack
section: enumerate the reversed outer sequence, rendering each bundle at its
display index. -/
def call_stack_rendered {α : Type}
    (frame_context_string : α → Nat → Option String)
    (reprOf : PyValue → String) (context : ExceptionContext α)
    (snippets : Bool) : List String :=
  context.source_code_bundles.reverse.enum.map (fun ib =>
    render_call_stack_frame frame_context_string reprOf context snippets ib.1 ib.2)

/-! ## Chat export (`lib/ports/chat.py`, `Chat._handle_save`) -/

/-- The nested `ChatExportData.Exception` dataclass. -/
structure ChatExportException where
  type : String
  message : String

/-- The `ChatExportData` dataclass, fields in declaration order. -/
structure ChatExportData where
  timestamp : Int
  version : String
  python_version : Option String
  exception : Option ChatExportException
  messages : List Message

/-- Serialization of `ChatExportData` as `json.dump(asdict(export_data))`
produces it: every dataclass field becomes a member in declaration order, a
`None` field becomes JSON `null`, the nested dataclasses become objects. -/
def chat_export_json (d : ChatExportData) : Json :=
  .obj [("timestamp", .num d.timestamp),
        ("version", .str d.version),
        ("python_version",
          match d.python_version with
          | none => .null
          | some s => .str s),
        ("exception",
          match d.exception with
          | none => .null
          | some e => .obj [("type", .str e.type), ("message", .str e.message)]),
        ("messages", .arr (d.messages.map (fun m =>
          .obj [("role", .str m.role), ("content", .str m.content)])))]

/-- The document written by `Chat._handle_save`: a fresh `ChatExportData`
(current timestamp, the fixed schema version `CHAT_EXPORT_JSON_VERSION` from
`lib/constants.py`, which is outside `src/` and therefore a parameter here),
enriched with the failure metadata when a context is attached, and the
non-system message history. -/
def handle_save {α : Type} (now_ts : Int) (export_version : String)
    (exception_context : Option (ExceptionContext α))
    (messages : List Message) : Json :=
  let export_data : ChatExportData := ⟨now_ts, export_version, none, none, []⟩
  let export_data :=
    match exception_context with
    | some ctx =>
      { export_data with
          python_version := some ctx.python_version,
          exception := some ⟨ctx.exception_type_name, ctx.exception_message⟩ }
    | none => export_data
  let export_data :=
    { export_data with
        messages := (messages.filter (fun m => m.role ≠ "system")).map
          (fun m => ⟨m.role, m.content⟩) }
  chat_export_json export_data

/-! ## Concrete fixtures used by witnesses and counterexamples -/

/-- A frame of ordinary user code. -/
def frameMain : Frame := ⟨"main", "app.py", 10, none⟩

/-- A second frame of ordinary user code, with a plain captured local. -/
def frameHelper : Frame := ⟨"helper", "lib.py", 4, some [("x", .other "builtins")]⟩

/-- A frame of the tool's own wrapping layer, skipped by the walk. -/
def frameWrapper : Frame := ⟨"wrapper", "fincantatem/__init__.py", 1, none⟩

/-- A file system on which path-based retrieval always succeeds. -/
def fsExample : FileSystem := ⟨fun _ _ => some ("code", "snippet"), fun _ => none⟩

/-- An exception whose traceback has two eligible frames. -/
def excExample : ExceptionInfo :=
  ⟨"ValueError", "bad value", none, none, some [("note", "n")], none,
   "Traceback (most recent call last): ...", [frameMain, frameHelper]⟩

/-- The bundle the walk produces for `frameMain` under `fsExample`. -/
def bundleMain : SourceCodeBundle := ⟨"app.py", "code", "snippet", 10, 1, "main", none⟩

/-- The bundle the walk produces for `frameHelper` under `fsExample`. -/
def bundleHelper : SourceCodeBundle :=
  ⟨"lib.py", "code", "snippet", 4, 1, "helper", some [("x", .other "builtins")]⟩

/-- An exception whose only traceback frame is a wrapper frame, so the walk
yields no bundle at all. -/
def excAllSkipped : ExceptionInfo :=
  ⟨"RuntimeError", "boom", none, none, none, none, "Traceback ...", [frameWrapper]⟩

/-! ## C1 -/

/-- C1: for every exception whose captured frame chain is non-empty, the
built context's immediate bundle is the last bundle of the full chain, the
outer sequence is the chain with that last bundle removed (so its length plus
one is the chain's length), and outer concatenated with the immediate bundle
restores the full chain in unwind order. -/
theorem C1_immediate_outer_partition {α : Type} (python_version : String)
    (exception : ExceptionInfo) (file_system : FileSystem)
    (frameworks : List (List SourceCodeBundle → Option α))
    (bundles : List SourceCodeBundle)
    (hfetch : fetch_source_code_bundle file_system exception.frames = .ok bundles)
    (hne : bundles ≠ []) :
    ∃ ctx, build_exception_context python_version exception file_system frameworks =
        .ok ctx ∧
      bundles.getLast? = some ctx.immediate_source_code_bundle ∧
      ctx.source_code_bundles = bundles.dropLast ∧
      ctx.source_code_bundles.length + 1 = bundles.length ∧
      ctx.source_code_bundles ++ [ctx.immediate_source_code_bundle] = bundles := by
  rcases hlast : bundles.getLast? with _ | last
  · exact absurd (List.getLast?_eq_none_iff.mp hlast) hne
  · have hbuild : build_exception_context python_version exception file_system
        frameworks =
        .ok ⟨python_version, exception.type_name, exception.message,
          exception_attributes_of exception, exception.traceback_text,
          exception.cause, exception.context, last, bundles.dropLast,
          frameworks.filterMap (fun fw => fw bundles)⟩ := by
      unfold build_exception_context
      rw [hfetch]
      simp only [Bind.bind, Except.bind]
      rw [hlast]
    refine ⟨_, hbuild, ?_, rfl, ?_, ?_⟩
    · first
      | exact hlast
      | rfl
    · have hpos : 0 < bundles.length := List.length_pos.mpr hne
      simp only [List.length_dropLast]
      omega
    · exact List.dropLast_append_getLast? last hlast

/-- Witness for C1 at a concrete two-frame traceback. -/
theorem C1_immediate_outer_partition_witness :
    ∃ ctx, build_exception_context (α := JaxContext) "3.12.0" excExample fsExample [] =
        .ok ctx ∧
      [bundleMain, bundleHelper].getLast? = some ctx.immediate_source_code_bundle ∧
      ctx.source_code_bundles = [bundleMain, bundleHelper].dropLast ∧
      ctx.source_code_bundles.length + 1 = [bundleMain, bundleHelper].length ∧
      ctx.source_code_bundles ++ [ctx.immediate_source_code_bundle] =
        [bundleMain, bundleHelper] :=
  C1_immediate_outer_partition "3.12.0" excExample fsExample []
    [bundleMain, bundleHelper] (by rfl) (by simp)

/-! ## C2 -/

/-- C2 counterexample: with a traceback whose only frame is skipped as a
wrapper frame, the walk yields zero bundles and `build_exception_context`
fails with the generic `IndexError` of `source_code_bundles[-1]`, not with a
dedicated `EmptyFrameChain` error. -/
theorem C2_counterexample :
    build_exception_context (α := JaxContext) "3.12.0" excAllSkipped fsExample [] =
        .error .indexError ∧
      BuildError.indexError ≠ BuildError.emptyFrameChain := by
  exact ⟨rfl, by decide⟩

/-- C2 amended: whenever the frame walk yields zero eligible bundles, the
builder fails — it never returns an empty-but-valid context — but the failure
is the `IndexError` raised by taking the last element of the empty bundle
list, not a dedicated `EmptyFrameChain` error. -/
theorem C2_empty_walk_fails {α : Type} (python_version : String)
    (exception : ExceptionInfo) (file_system : FileSystem)
    (frameworks : List (List SourceCodeBundle → Option α))
    (hfetch : fetch_source_code_bundle file_system exception.frames = .ok []) :
    build_exception_context python_version exception file_system frameworks =
      .error .indexError := by
  unfold build_exception_context
  rw [hfetch]
  rfl

/-- Witness for the amended C2 at the all-skipped traceback. -/
theorem C2_empty_walk_fails_witness :
    build_exception_context (α := JaxContext) "3.12.0" excAllSkipped fsExample [] =
      .error .indexError :=
  C2_empty_walk_fails "3.12.0" excAllSkipped fsExample [] (by rfl)

/-! ## C7 -/

/-- C7: in local-variable rendering, a binding whose representation exceeds
200 code points renders as its name with exactly the first 200 code points of
the representation followed by the fixed `"..."` marker; a binding within the
limit renders unchanged; an absent or empty binding set renders as the single
`"No local variables captured"` line, never an empty section; and a non-empty
binding set renders one `"  name = <repr>"` line per binding, joined with
newlines. -/
theorem C7_format_locals_rendering :
    format_locals (id : String → String) none = "No local variables captured" ∧
    format_locals (id : String → String) (some []) = "No local variables captured" ∧
    (∀ name v : String, pyLen v > 200 →
      format_locals_line (id : String → String) (name, v) =
        "  " ++ name ++ " = " ++ (pyTake v 200 ++ "...") ∧
      pyLen (pyTake v 200) = 200) ∧
    (∀ name v : String, pyLen v ≤ 200 →
      format_locals_line (id : String → String) (name, v) =
        "  " ++ name ++ " = " ++ v) ∧
    (∀ lvs : List (String × String), lvs ≠ [] →
      format_locals (id : String → String) (some lvs) =
        String.intercalate "\n"
          (lvs.map (format_locals_line (id : String → String)))) := by
  refine ⟨rfl, rfl, ?_, ?_, ?_⟩
  · intro name v h
    constructor
    · simp [format_locals_line, h]
    · have hv : 200 < v.data.length := h
      show (v.data.take 200).length = 200
      rw [List.length_take]
      omega
  · intro name v h
    simp only [format_locals_line, id]
    rw [if_neg (by omega)]
  · intro lvs hne
    match lvs with
    | [] => exact absurd rfl hne
    | x :: xs => rfl

/-- A 201-character representation, for the truncation witness. -/
def longRepr : String := String.mk (List.replicate 201 'a')

/-- Witness for C7 at concrete bindings, including a 201-character value. -/
theorem C7_format_locals_rendering_witness :
    format_locals (id : String → String) none = "No local variables captured" ∧
    (format_locals_line (id : String → String) ("x", longRepr) =
        "  " ++ "x" ++ " = " ++ (pyTake longRepr 200 ++ "...") ∧
      pyLen (pyTake longRepr 200) = 200) ∧
    format_locals_line (id : String → String) ("y", "short") =
      "  " ++ "y" ++ " = " ++ "short" ∧
    format_locals (id : String → String) (some [("y", "short")]) =
      String.intercalate "\n"
        ([("y", "short")].map (format_locals_line (id : String → String))) :=
  ⟨C7_format_locals_rendering.1,
   C7_format_locals_rendering.2.2.1 "x" longRepr
     (by show 200 < (List.replicate 201 'a').length
         rw [List.length_replicate]
         omega),
   C7_format_locals_rendering.2.2.2.1 "y" "short" (by decide),
   C7_format_locals_rendering.2.2.2.2 [("y", "short")] (by simp)⟩

/-! ## C8 -/

/-- C8: the outer call-stack frames are rendered by enumerating the reversed
outer sequence with zero-based display indices — the entry at display index
`d` is the rendering, at display index `d`, of the original bundle at index
`N - 1 - d` — and the display-to-original conversion
`original_frame_index N d = N - 1 - d` is its own inverse on indices below
`N`. -/
theorem C8_display_index_mapping :
    (∀ N d, d < N →
      original_frame_index N (original_frame_index N d) = d) ∧
    (∀ (α : Type) (fcs : α → Nat → Option String) (reprOf : PyValue → String)
        (context : ExceptionContext α) (snippets : Bool) (d : Nat),
      d < context.source_code_bundles.length →
      (call_stack_rendered fcs reprOf context snippets)[d]? =
        (context.source_code_bundles[original_frame_index
            context.source_code_bundles.length d]?).map
          (render_call_stack_frame fcs reprOf context snippets d)) := by
  constructor
  · intro N d h
    unfold original_frame_index
    omega
  · intro α fcs reprOf context snippets d h
    unfold call_stack_rendered
    rw [List.getElem?_map, List.getElem?_enum,
      List.getElem?_reverse (by simpa using h)]
    simp only [original_frame_index, Option.map_map]
    rcases context.source_code_bundles[context.source_code_bundles.length - 1 - d]? with _ | b <;> rfl

/-- A concrete two-outer-frame context for the C8 witness. -/
def ctxExample : ExceptionContext JaxContext :=
  ⟨"3.12.0", "ValueError", "bad value", none, "tb", none, none, bundleHelper,
   [bundleMain, bundleHelper], []⟩

/-- Witness for C8: the involution at `N = 3, d = 1`, and the rendered-list
characterization at display index 0 of a two-frame outer sequence. -/
theorem C8_display_index_mapping_witness :
    original_frame_index 3 (original_frame_index 3 1) = 1 ∧
    (call_stack_rendered (fun (_ : JaxContext) _ => none) (fun _ => "v")
        ctxExample true)[0]? =
      (ctxExample.source_code_bundles[original_frame_index
          ctxExample.source_code_bundles.length 0]?).map
        (render_call_stack_frame (fun _ _ => none) (fun _ => "v") ctxExample
          true 0) :=
  ⟨C8_display_index_mapping.1 3 1 (by decide),
   C8_display_index_mapping.2 JaxContext (fun _ _ => none) (fun _ => "v")
     ctxExample true 0 (by decide)⟩

/-! ## C3 -/

/-- Helper: the local-variable loop produces nothing when every binding
classifies as neither a PRNG key nor an array. -/
theorem collect_frame_vars_eq_nil {lvs : List (String × PyValue)}
    (h : ∀ nv ∈ lvs, extract_prng_metadata nv.1 nv.2 = none ∧
      extract_array_metadata nv.1 nv.2 = none) :
    collect_frame_vars lvs = ([], []) := by
  induction lvs with
  | nil => rfl
  | cons x xs ih =>
    obtain ⟨n, v⟩ := x
    obtain ⟨hp, ha⟩ := h (n, v) (List.mem_cons_self _ _)
    have ih2 := ih (fun nv hnv => h nv (List.mem_cons_of_mem _ hnv))
    unfold collect_frame_vars
    rw [ih2]
    by_cases hd : pyStartsWith n "__" = true
    · simp [hd]
    · simp only [Bool.not_eq_true] at hd
      simp [hd, hp, ha]

/-- The ambient JAX state of the concrete examples. -/
def plainJaxEnv : JaxEnv := ⟨"0.4.30", 1, "cpu", false⟩

/-- C3 counterexample: on a bundle chain in which no frame yields any
relevant framework metadata (the only local is a plain object, the function
names carry no transformation marker), `extract_context` still returns a
context — never `None` — so the builder's `framework_context` holds one entry
for the plugin, not zero. -/
theorem C3_counterexample :
    jax_framework_extractor plainJaxEnv [bundleMain, bundleHelper] ≠ none ∧
    (build_exception_context "3.12.0" excExample fsExample
        [jax_framework_extractor plainJaxEnv]).map
      (fun ctx => ctx.framework_context.length) = .ok 1 := by
  refine ⟨?_, rfl⟩
  intro h
  exact Option.noConfusion h

/-- C3 amended: `extract_context` is a pure function of the bundles that
always returns a context (never `None`): on a chain in which no frame yields
any relevant metadata, the returned context's per-frame entries are all empty
(no arrays, no keys, no transformation), and the builder's `None` filter
therefore still keeps one entry for the plugin. -/
theorem C3_extract_context_never_none (env : JaxEnv)
    (bundles : List SourceCodeBundle)
    (h : ∀ b ∈ bundles,
      (∀ nv ∈ b.local_vars.getD [], extract_prng_metadata nv.1 nv.2 = none ∧
        extract_array_metadata nv.1 nv.2 = none) ∧
      detect_transformation b.function_name = none) :
    jax_framework_extractor env bundles = some (jax_extract_context env bundles) ∧
    ∀ fc ∈ (jax_extract_context env bundles).frame_contexts,
      fc.arrays = [] ∧ fc.prng_keys = [] ∧ fc.transformation_context = none := by
  refine ⟨rfl, ?_⟩
  intro fc hfc
  simp only [jax_extract_context, List.mem_map] at hfc
  obtain ⟨b, hb, rfl⟩ := hfc
  obtain ⟨hlocals, htrans⟩ := h b hb
  unfold jax_frame_context_of
  rw [collect_frame_vars_eq_nil hlocals]
  exact ⟨rfl, rfl, htrans⟩

/-- Witness for the amended C3 on the concrete two-bundle chain with no
relevant metadata anywhere. -/
theorem C3_extract_context_never_none_witness :
    jax_framework_extractor plainJaxEnv [bundleMain, bundleHelper] =
      some (jax_extract_context plainJaxEnv [bundleMain, bundleHelper]) ∧
    ∀ fc ∈ (jax_extract_context plainJaxEnv
        [bundleMain, bundleHelper]).frame_contexts,
      fc.arrays = [] ∧ fc.prng_keys = [] ∧ fc.transformation_context = none :=
  C3_extract_context_never_none plainJaxEnv [bundleMain, bundleHelper]
    (by decide)

/-! ## C9 -/

/-- A JAX array value as the plugin's qualification test accepts it. -/
def jaxArrayExample : PyValue :=
  .nd [2] "float32" "jax.interpreters.xla" false none "cpu"

/-- C9: a direct binding to a JAX array (shape, dtype, `jax*` type module) is
extracted, but the same array nested one level deep inside a tuple or a list
is not — `extract_array_metadata` answers `None` for any container, so a
frame whose only binding is a tuple holding a JAX array contributes no array
metadata, although the extraction site's own comment says arrays nested in
containers are included. -/
theorem C9_nested_container_not_inspected :
    extract_array_metadata "x" jaxArrayExample =
      some ⟨"x", [2], "float32", "cpu", false, none⟩ ∧
    extract_array_metadata "x" (.tup [jaxArrayExample]) = none ∧
    extract_array_metadata "x" (.lst [jaxArrayExample]) = none ∧
    collect_frame_vars [("x", .tup [jaxArrayExample])] = ([], []) :=
  ⟨rfl, rfl, rfl, rfl⟩

/-! ## C4 -/

/-- C4 counterexample: saving a session whose originating failure context is
absent produces a document in which the `exception` member is present with
value `null` — `asdict` keeps every dataclass field — so the field is not
absent as claimed. -/
theorem C4_counterexample :
    (match handle_save 0 "1.0" (none : Option (ExceptionContext JaxContext))
        [⟨"system", "sys"⟩, ⟨"user", "a"⟩, ⟨"assistant", "b"⟩] with
      | .obj kvs => jlookup "exception" kvs
      | _ => none) = some .null ∧
    some Json.null ≠ (none : Option Json) :=
  ⟨rfl, fun h => Option.noConfusion h⟩

/-- C4 amended: for a session with non-system history
`[user "a", assistant "b"]` and no failure context, the export document's
`messages` array is exactly the two non-system messages in order (the system
message is excluded), and its `exception` member carries the JSON `null`
value (present-but-null, rather than absent). -/
theorem C4_save_export_document (ts : Int) (ver sysContent : String) :
    handle_save ts ver (none : Option (ExceptionContext JaxContext))
      [⟨"system", sysContent⟩, ⟨"user", "a"⟩, ⟨"assistant", "b"⟩] =
    .obj [("timestamp", .num ts), ("version", .str ver),
          ("python_version", .null), ("exception", .null),
          ("messages", .arr
            [.obj [("role", .str "user"), ("content", .str "a")],
             .obj [("role", .str "assistant"), ("content", .str "b")]])] := rfl

/-! ## C6 -/

/-- Helper: the ASCII lowering of a character is `'/'` only for `'/'`. -/
theorem pyLowerChar_eq_slash {c : Char} (h : pyLowerChar c = '/') : c = '/' := by
  unfold pyLowerChar at h
  by_cases hc : 65 ≤ c.toNat ∧ c.toNat ≤ 90
  · rw [if_pos hc] at h
    exfalso
    obtain ⟨h1, h2⟩ := hc
    generalize hg : c.toNat = n at h h1 h2
    interval_cases n <;> exact absurd h (by decide)
  · rwa [if_neg hc] at h

/-- Helper: a string whose ASCII lowering starts with a slash itself starts
with a slash. -/
theorem pyStartsWith_slash_of_pyLower {u : String} {cs : List Char}
    (h : pyLower u = String.mk ('/' :: cs)) : pyStartsWith u "/" = true := by
  have hd : u.data.map pyLowerChar = '/' :: cs := congrArg String.data h
  cases hu : u.data with
  | nil =>
    rw [hu] at hd
    exact absurd hd (by simp)
  | cons c rest =>
    rw [hu] at hd
    simp only [List.map_cons, List.cons.injEq] at hd
    have hc : c = '/' := pyLowerChar_eq_slash hd.1
    show ("/").data.isPrefixOf u.data = true
    rw [hu, hc]
    simp [List.isPrefixOf]

/-- Helper: an input that parses as some chat command satisfies
`_is_command` (its stripped form starts with a slash). -/
theorem is_command_of_parse {s : String} {cmd : ChatCommand}
    (h : parse_command s = some cmd) : is_command s = true := by
  have ht : pyLower (pyStrip s) = cmd.value := by
    have hp := List.find?_some h
    exact eq_of_beq hp
  cases cmd <;>
    exact pyStartsWith_slash_of_pyLower (ht.trans (by rfl))

/-- C6: command matching ignores case and surrounding whitespace — any input
that parses as `/quit` or `/q` (matching is over the stripped, lowercased
text) ends the session with the history untouched; any command-shaped input
that matches no command leaves the history unchanged and re-prompts (the
session continues on the remaining inputs); and plain text appends exactly
one `user` message, after which the assistant reply is appended behind it. -/
theorem C6_chat_command_matching :
    (∀ s rest messages,
      (parse_command s = some .quit ∨ parse_command s = some .quitShort) →
      ask_user messages (s :: rest) = (none, messages)) ∧
    (∀ s rest messages, is_command s = true → parse_command s = none →
      ask_user messages (s :: rest) = ask_user messages rest) ∧
    (∀ s rest messages, is_command s = false →
      ask_user messages (s :: rest) =
        (some s, messages ++ [Message.mk "user" s]) ∧
      ∀ r, add_response (messages ++ [Message.mk "user" s]) r =
        messages ++ [Message.mk "user" s, Message.mk "assistant" r]) := by
  refine ⟨?_, ?_, ?_⟩
  · rintro s rest messages (h | h) <;>
      simp [ask_user, is_command_of_parse h, h]
  · intro s rest messages hc hp
    simp [ask_user, hc, hp]
  · intro s rest messages hc
    refine ⟨by simp [ask_user, hc], ?_⟩
    intro r
    simp [add_response]

/-- Witness for C6: `"  /Q  "` quits without touching history, `"/bogus"`
re-prompts with the history unchanged, `"why?"` appends one user message and
the assistant reply lands behind it. -/
theorem C6_chat_command_matching_witness :
    ask_user [] ["  /Q  "] = (none, []) ∧
    ask_user [Message.mk "system" "s"] ["/bogus"] =
      ask_user [Message.mk "system" "s"] [] ∧
    (ask_user [] ["why?"] = (some "why?", [] ++ [Message.mk "user" "why?"]) ∧
      ∀ r, add_response ([] ++ [Message.mk "user" "why?"]) r =
        [] ++ [Message.mk "user" "why?", Message.mk "assistant" r]) :=
  ⟨C6_chat_command_matching.1 "  /Q  " [] [] (Or.inr (by decide)),
   C6_chat_command_matching.2.1 "/bogus" [] [Message.mk "system" "s"]
     (by decide) (by decide),
   C6_chat_command_matching.2.2 "why?" [] [] (by decide)⟩

/-! ## C5 -/

/-- A well-formed delta payload line carrying the fragment `"Hel"`. -/
def payloadHel : String :=
  "data: \x7b\"choices\":[\x7b\"delta\":\x7b\"content\":\"Hel\"\x7d\x7d]\x7d"

/-- A well-formed delta payload line carrying the fragment `"lo"`. -/
def payloadLo : String :=
  "data: \x7b\"choices\":[\x7b\"delta\":\x7b\"content\":\"lo\"\x7d\x7d]\x7d"

/-- A well-formed payload line whose delta carries content after the
sentinel. -/
def payloadLate : String :=
  "data: \x7b\"choices\":[\x7b\"delta\":\x7b\"content\":\"late\"\x7d\x7d]\x7d"

/-- C5: lines that are empty or lack the `data: ` prefix are ignored; a
`data: [DONE]` line ends the produced sequence with nothing consumed after
it; a line whose payload is malformed JSON is skipped without ending the
sequence; the concrete transport carrying `"Hel"`, a malformed line, `"lo"`
and the sentinel yields exactly `"Hel"` then `"lo"` then ends; and the
response connection is released on every exit path. -/
theorem C5_call_stream_protocol :
    (∀ l rest, pyStrip l = "" ∨ pyStartsWith (pyStrip l) "data: " = false →
      consume_stream (.line l :: rest) = consume_stream rest) ∧
    (∀ rest, consume_stream (.line "data: [DONE]" :: rest) = ([], false)) ∧
    (∀ s rest, pyStrip ("data: " ++ s) = "data: " ++ s → s ≠ "[DONE]" →
      json_loads s = none →
      consume_stream (.line ("data: " ++ s) :: rest) = consume_stream rest) ∧
    call_stream [.line "", .line ": keep-alive", .line payloadHel,
        .line "data: \x7bnot json", .line payloadLo, .line "data: [DONE]",
        .line payloadLate] =
      ⟨[.str "Hel", .str "lo"], false, true⟩ ∧
    (∀ events, (call_stream events).released = true) := by
  refine ⟨?_, ?_, ?_, rfl, fun _ => rfl⟩
  · intro l rest h
    have hskip : process_stream_line l = .skip := by
      unfold process_stream_line
      rcases h with h | h
      · rw [if_pos (Or.inl h)]
      · rw [if_pos (Or.inr (by simp [h]))]
    simp [consume_stream, hskip]
  · intro rest
    rfl
  · intro s rest h1 h2 h3
    have hpre : pyStartsWith ("data: " ++ s) "data: " = true := by
      show ("data: ").data.isPrefixOf ("data: " ++ s).data = true
      rw [String.data_append]
      simp [List.isPrefixOf_iff_prefix]
    have hne : ("data: " ++ s) ≠ "" := by
      intro hh
      have := congrArg String.data hh
      rw [String.data_append] at this
      simp at this
    have hdrop : pyDrop ("data: " ++ s) 6 = s := by
      show String.mk (("data: " ++ s).data.drop 6) = s
      rw [String.data_append]
      exact congrArg String.mk (List.drop_left ("data: ").data s.data)
    have hskip : process_stream_line ("data: " ++ s) = .skip := by
      unfold process_stream_line
      rw [h1, if_neg (by push_neg; exact ⟨hne, by simp [hpre]⟩), hdrop,
        if_neg h2, h3]
    simp [consume_stream, hskip]

/-- Witness for C5: a keep-alive line is ignored, a malformed payload line is
skipped without ending the sequence. -/
theorem C5_call_stream_protocol_witness :
    consume_stream [.line ": keep-alive"] = consume_stream [] ∧
    consume_stream (.line ("data: " ++ "\x7bnot json") :: [.line "data: [DONE]"]) =
      consume_stream [.line "data: [DONE]"] :=
  ⟨C5_call_stream_protocol.1 ": keep-alive" [] (Or.inr (by rfl)),
   C5_call_stream_protocol.2.2.1 "\x7bnot json" [.line "data: [DONE]"]
     (by rfl) (by decide) (by rfl)⟩

/-! ## C10 -/

/-- A payload whose delta content is the number `5`: truthy but not a
string. -/
def payloadNum5 : String :=
  "data: \x7b\"choices\":[\x7b\"delta\":\x7b\"content\":5\x7d\x7d]\x7d"

/-- A payload whose delta has no content member. -/
def payloadNoContent : String :=
  "data: \x7b\"choices\":[\x7b\"delta\":\x7b\x7d\x7d]\x7d"

/-- A payload whose delta content is the empty string. -/
def payloadEmptyContent : String :=
  "data: \x7b\"choices\":[\x7b\"delta\":\x7b\"content\":\"\"\x7d\x7d]\x7d"

/-- C10 counterexample: a well-formed payload whose delta content is the JSON
number `5` makes `call_stream` yield that number as a fragment — a fragment
that is not a string at all, refuting that every fragment is a non-empty
string. -/
theorem C10_counterexample :
    (call_stream [.line payloadNum5, .line "data: [DONE]"]).fragments =
      [.num 5] ∧
    ∀ s, Json.num 5 ≠ Json.str s :=
  ⟨rfl, fun _ h => Json.noConfusion h⟩

/-- Helper: a fragment produced from one line passed the truthiness guard. -/
theorem process_stream_line_frag_truthy {l : String} {c : Json}
    (h : process_stream_line l = .frag c) : pyTruthy c = true := by
  unfold process_stream_line at h
  simp only [] at h
  split at h
  · exact LineResult.noConfusion h
  · split at h
    · exact LineResult.noConfusion h
    · split at h
      · exact LineResult.noConfusion h
      · split at h
        · exact LineResult.noConfusion h
        · split at h
          · exact LineResult.noConfusion h
          · split at h
            · cases h
              assumption
            · exact LineResult.noConfusion h

/-- Helper: every fragment the consumption loop produces is truthy. -/
theorem consume_stream_fragments_truthy :
    ∀ (events : List TransportEvent) (f : Json),
      f ∈ (consume_stream events).1 → pyTruthy f = true := by
  intro events
  induction events with
  | nil =>
    intro f hf
    simp [consume_stream] at hf
  | cons e rest ih =>
    intro f hf
    cases e with
    | fault => simp [consume_stream] at hf
    | line s =>
      unfold consume_stream at hf
      cases hps : process_stream_line s with
      | skip =>
        rw [hps] at hf
        exact ih f hf
      | done =>
        rw [hps] at hf
        simp at hf
      | err =>
        rw [hps] at hf
        simp at hf
      | frag c =>
        rw [hps] at hf
        simp only [List.mem_cons] at hf
        rcases hf with rfl | hf
        · exact process_stream_line_frag_truthy hps
        · exact ih f hf

/-- C10 amended: every fragment yielded by `call_stream` is truthy — so a
fragment that is a string is non-empty, and a payload whose delta lacks a
content member or carries empty content produces no fragment — and no line
after the terminal sentinel contributes anything to the sequence. -/
theorem C10_fragments_truthy :
    (∀ events f, f ∈ (call_stream events).fragments → pyTruthy f = true) ∧
    (∀ events s, Json.str s ∈ (call_stream events).fragments → s ≠ "") ∧
    (∀ pre post, consume_stream (pre ++ .line "data: [DONE]" :: post) =
      consume_stream (pre ++ [.line "data: [DONE]"])) ∧
    (call_stream [.line payloadNoContent, .line payloadEmptyContent,
        .line "data: [DONE]", .line payloadHel]).fragments = [] := by
  have htruthy : ∀ events f, f ∈ (call_stream events).fragments →
      pyTruthy f = true := by
    intro events f hf
    exact consume_stream_fragments_truthy events f hf
  refine ⟨htruthy, ?_, ?_, rfl⟩
  · intro events s hs
    have := htruthy events (.str s) hs
    simpa [pyTruthy] using this
  · intro pre post
    induction pre with
    | nil => rfl
    | cons e pre ih =>
      cases e with
      | fault => rfl
      | line s =>
        show consume_stream (.line s :: (pre ++ _)) =
          consume_stream (.line s :: (pre ++ _))
        unfold consume_stream
        cases hps : process_stream_line s <;> simp [hps, ih]

/-- Witness for the amended C10: the fragment `"Hel"` of the concrete stream
is truthy and non-empty. -/
theorem C10_fragments_truthy_witness :
    pyTruthy (Json.str "Hel") = true ∧ "Hel" ≠ "" :=
  ⟨C10_fragments_truthy.1 [.line payloadHel, .line "data: [DONE]"]
     (Json.str "Hel") (List.mem_cons_self _ _),
   C10_fragments_truthy.2.1 [.line payloadHel, .line "data: [DONE]"] "Hel"
     (List.mem_cons_self _ _)⟩

end Fincantatem
